import Mathlib

set_option maxRecDepth 100000

/-!
Verification of the provider-fallback orchestrator of `src/main.py`
(a Telegram bot front end over interchangeable AI generation services).

The Python code is shallowly embedded:

* `stats` dicts become the `Stats` structure, `update_stats` is translated
  directly; `datetime.now()` is an abstract tick (`Nat`) threaded into each
  update.
* One call of a provider coroutine (`generate_image` / `generate_text`) either
  raises or returns an optional payload; for a single orchestrator call this
  is the `Outcome` of that provider.  Python truthiness of the payload
  (`if result:`) is an explicit `truthy : α → Bool` — for text payloads the
  empty string is falsy, for image payloads the empty byte string is falsy.
* The fallback loops of `ProviderManager.generate_image_with_fallback` and
  `ProviderManager.generate_text_with_fallback` (lines 157-189, textually
  identical up to the capability) become `fallbackLoop`, instrumented so that
  it also returns the post-state of the provider list and the names of the
  providers whose attempt was invoked, in invocation order.
* `genall_command` / `askall_command` (the query-all-providers paths) become
  `genall_command` / `askall_command`; neither touches any provider's stats,
  exactly as in the source.
* `random.choice` / `random.randint` consume the process-wide RNG, modelled
  as an oracle stream of naturals (`Rng`); each draw takes the head and
  leaves the tail, so an invocation both depends on and advances the shared
  RNG state.
* The constructor calls of `_init_providers` are modelled by
  `ConstructorCall` / `buildRegistry`: six provider classes define no
  `__init__`, so their calls `Cls(name, priority=k)` reach
  `AIProvider.__init__` without its required `provider_type` argument and
  raise `TypeError` — `ProviderManager()` (module scope, line 1081) never
  completes.
* `UserSession.add_to_history` (lines 1098-1108) becomes `add_to_history`;
  Python string slicing `s[:n]` becomes `pyTake` (the first `n` characters).
-/

/-- First `n` characters of a string: Python's `s[:n]` slice. -/
def pyTake (s : String) (n : Nat) : String :=
  ⟨s.data.take n⟩

/-- Python truthiness of an optional payload (`if result:`):
`None` is falsy, a present payload is truthy iff `truthy` says so. -/
def optTruthy (truthy : α → Bool) : Option α → Bool
  | none => false
  | some v => truthy v

/-- Truthiness of a text payload: the empty string is falsy. -/
def textTruthy (s : String) : Bool := s ≠ ""

/-- Truthiness of an image payload (bytes): the empty byte string is falsy. -/
def bytesTruthy (b : List Nat) : Bool := b ≠ []

/-- The `stats` dict of `AIProvider` : `{"success": 0, "failure": 0, "last_used": None}`. -/
structure Stats where
  success : Nat
  failure : Nat
  last_used : Option Nat
deriving Repr, DecidableEq

/-- Fresh stats, as set in `AIProvider.__init__`. -/
def stats0 : Stats := ⟨0, 0, none⟩

/-- `AIProvider.update_stats` (lines 66-72): increment the counter selected by
`success` and stamp `last_used` with the current time (`now` models
`datetime.now()`). -/
def update_stats (success : Bool) (now : Nat) (s : Stats) : Stats :=
  if success then { s with success := s.success + 1, last_used := some now }
  else { s with failure := s.failure + 1, last_used := some now }

/-- What one invocation of a provider's attempt does during the call being
analysed: it raises an exception, or returns an optional payload. -/
inductive Outcome (α : Type) where
  | raises
  | returns (r : Option α)
deriving Repr, DecidableEq

/-- A registered provider: name, priority and mutable stats as in
`AIProvider.__init__`, plus the behaviour of its attempt during the call
being analysed. -/
structure Provider (α : Type) where
  name : String
  priority : Int
  stats : Stats
  attempt : Outcome α
deriving Repr, DecidableEq

/-- Does this outcome count as a failure in the fallback loop?  Both an
exception and a falsy result (`None`, or a present but empty payload) do. -/
def outcomeFails (truthy : α → Bool) : Outcome α → Bool
  | .raises => true
  | .returns r => !optTruthy truthy r

/-- Everything observable about one orchestrator call: the returned pair
(`payload`, `providerName`) exactly as the Python function returns it, the
provider list after the call (its stats updated in place), and the names of
the providers whose attempt was invoked, in invocation order. -/
structure FallbackRun (α : Type) where
  payload : Option α
  providerName : String
  providers : List (Provider α)
  invoked : List String
deriving Repr, DecidableEq

/-- `ProviderManager.generate_image_with_fallback` / `generate_text_with_fallback`
(lines 157-189; the two loops are textually identical up to the capability):
walk the ordered provider list; on a truthy result record one success and
return `(result, provider.name)`; on a falsy result or an exception record
one failure and continue; when the list is exhausted return
`(None, "All providers failed")`.  `t` is the abstract clock for
`last_used`, advanced once per invoked provider. -/
def fallbackLoop (truthy : α → Bool) (t : Nat) :
    List (Provider α) → FallbackRun α
  | [] => ⟨none, "All providers failed", [], []⟩
  | p :: rest =>
    match p.attempt with
    | .returns (some v) =>
      if truthy v then
        ⟨some v, p.name,
          { p with stats := update_stats true t p.stats } :: rest, [p.name]⟩
      else
        let r := fallbackLoop truthy (t + 1) rest
        ⟨r.payload, r.providerName,
          { p with stats := update_stats false t p.stats } :: r.providers,
          p.name :: r.invoked⟩
    | .returns none =>
        let r := fallbackLoop truthy (t + 1) rest
        ⟨r.payload, r.providerName,
          { p with stats := update_stats false t p.stats } :: r.providers,
          p.name :: r.invoked⟩
    | .raises =>
        let r := fallbackLoop truthy (t + 1) rest
        ⟨r.payload, r.providerName,
          { p with stats := update_stats false t p.stats } :: r.providers,
          p.name :: r.invoked⟩

/-- Result of a query-all run: the success counter and the collected
`(provider name, payload)` pairs, the provider list after the call, and the
names of the providers whose attempt was invoked. -/
structure QueryAllRun (α : Type) where
  successful : Nat
  results : List (String × α)
  providers : List (Provider α)
  invoked : List String
deriving Repr, DecidableEq

/-- Loop body of `genall_command` (lines 1301-1316): invoke every provider in
the given list, count and collect the truthy results, swallow exceptions.
No stats are updated anywhere in this loop — the source never calls
`update_stats` here. -/
def genallLoop (truthy : α → Bool) : List (Provider α) → Nat × List (String × α) × List String
  | [] => (0, [], [])
  | p :: rest =>
    let hit : Option α :=
      match p.attempt with
      | .returns (some v) => if truthy v then some v else none
      | .returns none => none
      | .raises => none
    let (succ, results, inv) := genallLoop truthy rest
    match hit with
    | some v => (succ + 1, (p.name, v) :: results, p.name :: inv)
    | none => (succ, results, p.name :: inv)

/-- `genall_command` (lines 1285-1337), restricted to its provider-facing
behaviour: iterate over all image providers, collecting results; the provider
list is returned unchanged because the loop never updates stats. -/
def genall_command (truthy : α → Bool) (ps : List (Provider α)) : QueryAllRun α :=
  let (succ, results, inv) := genallLoop truthy ps
  ⟨succ, results, ps, inv⟩

/-- Loop body of `askall_command` (lines 1393-1401): for each provider of the
given list, invoke it, and on a truthy answer collect
`(name, answer[:200] + "...")`; exceptions are swallowed; no stats update. -/
def askallLoop (truthy : String → Bool) : List (Provider String) → List (String × String) × List String
  | [] => ([], [])
  | p :: rest =>
    let (responses, inv) := askallLoop truthy rest
    match p.attempt with
    | .returns (some v) =>
      if truthy v then ((p.name, pyTake v 200 ++ "...") :: responses, p.name :: inv)
      else (responses, p.name :: inv)
    | .returns none => (responses, p.name :: inv)
    | .raises => (responses, p.name :: inv)

/-- `askall_command` (lines 1381-1413), provider-facing behaviour: only the
first five text providers are queried (`provider_manager.text_providers[:5]`);
the provider list is returned unchanged because the loop never updates
stats. -/
def askall_command (truthy : String → Bool) (ps : List (Provider String)) :
    List (String × String) × List (Provider String) × List String :=
  let (responses, inv) := askallLoop truthy (ps.take 5)
  (responses, ps, inv)

/-- Stable insertion into a priority-sorted list: the new provider goes in
front of the first element whose priority is not smaller, hence after every
earlier-registered provider of strictly smaller priority and before every
later-registered provider of equal priority. -/
def insertByPriority (p : Provider α) : List (Provider α) → List (Provider α)
  | [] => [p]
  | q :: rest =>
    if p.priority ≤ q.priority then p :: q :: rest
    else q :: insertByPriority p rest

/-- `list.sort(key=lambda x: x.priority)` (lines 151-152): Python's sort is a
stable ascending sort by the key; modelled as stable insertion sort. -/
def sortByPriority : List (Provider α) → List (Provider α)
  | [] => []
  | p :: rest => insertByPriority p (sortByPriority rest)

/-- Non-decreasing priority order, the registry invariant. -/
def sortedByPriority (l : List (Provider α)) : Prop :=
  l.Pairwise fun a b => a.priority ≤ b.priority

/-- The image-provider list the nine constructor calls of `_init_providers`
(lines 88-115) are written to produce: name and priority as written, fresh
stats; the attempt behaviours are a parameter since the network-backed
providers' behaviour is external.  In the source this list is never
materialized: the calls for `PuterGPTImageProvider`, `PuterGeminiImageProvider`
and `PILImageProvider` raise `TypeError` (those classes define no `__init__`
— see `image_constructor_calls` and `init_providers_raises_type_error`), so
this list models the intended registry that the surrounding code and the
spec describe. -/
def image_registration (att : Nat → Outcome (List Nat)) : List (Provider (List Nat)) :=
  [⟨"Puter.js Image", 1, stats0, att 0⟩,
   ⟨"Nano Banana Pro (felo.ai)", 2, stats0, att 1⟩,
   ⟨"Pollinations AI", 3, stats0, att 2⟩,
   ⟨"Duck.ai", 4, stats0, att 3⟩,
   ⟨"NanoBanana-Pro", 5, stats0, att 4⟩,
   ⟨"Higgsfield AI", 6, stats0, att 5⟩,
   ⟨"GPT Image", 7, stats0, att 6⟩,
   ⟨"Gemini 2.5 Flash", 8, stats0, att 7⟩,
   ⟨"PIL Fallback", 9, stats0, att 8⟩]

/-- The text-provider list the ten constructor calls of `_init_providers`
(lines 118-148) are written to produce, name and priority as written.  In
the source it is never materialized: the calls for
`PuterGeminiFlashProvider`, `PuterGeminiProProvider` and `RuleBasedProvider`
raise `TypeError` (no own `__init__` — see `text_constructor_calls` and
`init_providers_raises_type_error`), so this list models the intended
registry that the surrounding code and the spec describe. -/
def text_registration (att : Nat → Outcome String) : List (Provider String) :=
  [⟨"Puter Gemini 3.1 Pro", 1, stats0, att 0⟩,
   ⟨"Puter GPT-5.2", 2, stats0, att 1⟩,
   ⟨"OpenRouter Gemini", 3, stats0, att 2⟩,
   ⟨"Duck.ai Chat", 4, stats0, att 3⟩,
   ⟨"NanoBanana-Pro Text", 5, stats0, att 4⟩,
   ⟨"felo.ai Chat", 6, stats0, att 5⟩,
   ⟨"Higgsfield Text", 7, stats0, att 6⟩,
   ⟨"Gemini 3 Flash", 8, stats0, att 7⟩,
   ⟨"Gemini 3 Pro", 9, stats0, att 8⟩,
   ⟨"Simple Fallback", 10, stats0, att 9⟩]

/-- One constructor call `Cls(name, priority=k)` of `_init_providers`.
`provider_type` is `some t` when `Cls` defines its own
`__init__(self, name, priority)` forwarding `t` to
`AIProvider.__init__(self, name, provider_type, priority)` (line 50), and
`none` when `Cls` defines no `__init__` at all, so the call reaches the
inherited `AIProvider.__init__` with its required `provider_type` argument
missing. -/
structure ConstructorCall where
  name : String
  priority : Int
  provider_type : Option String
deriving Repr, DecidableEq

/-- The `TypeError` Python raises for a call omitting a required positional
argument of `AIProvider.__init__`. -/
def typeErrorMissingArg : String :=
  "TypeError: __init__() missing 1 required positional argument: provider_type"

/-- Semantics of one constructor call: `AIProvider.__init__` has no default
for `provider_type`, so a call that omits it raises `TypeError` before any
provider object exists; otherwise the provider is built with fresh stats
(`att` supplies the attempt behaviour of the new instance). -/
def constructAIProvider (att : Outcome α) (c : ConstructorCall) :
    Except String (Provider α) :=
  match c.provider_type with
  | some _ => .ok ⟨c.name, c.priority, stats0, att⟩
  | none => .error typeErrorMissingArg

/-- Evaluation of a provider-list literal of `_init_providers`: Python
evaluates the constructor calls left to right and the first `TypeError`
propagates, aborting `ProviderManager.__init__` (and, since
`provider_manager = ProviderManager()` runs at module scope on line 1081,
the whole program). -/
def buildRegistry (att : Nat → Outcome α) :
    Nat → List ConstructorCall → Except String (List (Provider α))
  | _, [] => .ok []
  | i, c :: cs =>
    match constructAIProvider (att i) c with
    | .error e => .error e
    | .ok p =>
      match buildRegistry att (i + 1) cs with
      | .error e => .error e
      | .ok ps => .ok (p :: ps)

/-- The image-provider constructor calls of `_init_providers` (lines 88-115).
`PuterGPTImageProvider` (line 464), `PuterGeminiImageProvider` (line 523) and
`PILImageProvider` (line 582) define no `__init__`, so their calls omit the
required `provider_type`; the other six classes define
`__init__(self, name, priority)` and pass "image" themselves. -/
def image_constructor_calls : List ConstructorCall :=
  [⟨"Puter.js Image", 1, some "image"⟩,
   ⟨"Nano Banana Pro (felo.ai)", 2, some "image"⟩,
   ⟨"Pollinations AI", 3, some "image"⟩,
   ⟨"Duck.ai", 4, some "image"⟩,
   ⟨"NanoBanana-Pro", 5, some "image"⟩,
   ⟨"Higgsfield AI", 6, some "image"⟩,
   ⟨"GPT Image", 7, none⟩,
   ⟨"Gemini 2.5 Flash", 8, none⟩,
   ⟨"PIL Fallback", 9, none⟩]

/-- The text-provider constructor calls of `_init_providers` (lines 118-148).
`PuterGeminiFlashProvider` (line 945), `PuterGeminiProProvider` (line 1002)
and `RuleBasedProvider` (line 1059) define no `__init__`; the other seven
classes pass "text" themselves. -/
def text_constructor_calls : List ConstructorCall :=
  [⟨"Puter Gemini 3.1 Pro", 1, some "text"⟩,
   ⟨"Puter GPT-5.2", 2, some "text"⟩,
   ⟨"OpenRouter Gemini", 3, some "text"⟩,
   ⟨"Duck.ai Chat", 4, some "text"⟩,
   ⟨"NanoBanana-Pro Text", 5, some "text"⟩,
   ⟨"felo.ai Chat", 6, some "text"⟩,
   ⟨"Higgsfield Text", 7, some "text"⟩,
   ⟨"Gemini 3 Flash", 8, none⟩,
   ⟨"Gemini 3 Pro", 9, none⟩,
   ⟨"Simple Fallback", 10, none⟩]

/-- The process-wide RNG of the `random` module, modelled as an oracle stream
of naturals: each draw consumes the head and leaves the tail, so every draw
both reads and advances the shared state. -/
abbrev Rng : Type := List Nat

/-- `random.randint(a, b)`: one inclusive-range draw from the shared RNG. -/
def randint (a b : Nat) (g : Rng) : Nat × Rng :=
  (a + List.headD g 0 % (b - a + 1), List.tail g)

/-- `random.choice(xs)` for a non-empty list: draw an index below `xs.length`
from the shared RNG and return that element. -/
def choice (xs : List String) (g : Rng) : String × Rng :=
  (xs.getD (List.headD g 0 % xs.length) "", List.tail g)

/-- The three response templates of `RuleBasedProvider.generate_text`
(lines 1065-1069), each instantiated with the prompt. -/
def ruleBasedResponses (prompt : String) : List String :=
  ["🤖 备用 AI (规则引擎): 我收到了你的消息: '" ++ pyTake prompt 50 ++
     "...'\n\n这是紧急回退模式。所有高级 AI 都暂时不可用。",
   "⚠️ 当前所有 AI 提供商都繁忙。这是自动生成的回复。\n\n你的问题: " ++ pyTake prompt 100,
   "💡 故障转移模式激活。请稍后再试高级 AI。\n\n你的输入: " ++ pyTake prompt 100]

/-- `RuleBasedProvider.generate_text` (lines 1062-1074): pick one of the three
templates with `random.choice`.  The `except` arm (returning
`"备用回复: " + prompt[:100]`) is unreachable here since the body cannot
raise. -/
def RuleBasedProvider_generate_text (prompt : String) (g : Rng) : String × Rng :=
  choice (ruleBasedResponses prompt) g

/-- `random.randint(0, 1024)` four times: one rectangle of
`PILImageProvider.generate_image` (lines 605-610). -/
def drawRect (g : Rng) : (Nat × Nat × Nat × Nat) × Rng :=
  let (x1, g1) := randint 0 1024 g
  let (y1, g2) := randint 0 1024 g1
  let (x2, g3) := randint 0 1024 g2
  let (y2, g4) := randint 0 1024 g3
  ((x1, y1, x2, y2), g4)

/-- The `for i in range(10)` rectangle loop of `PILImageProvider.generate_image`. -/
def drawRects : Nat → Rng → List (Nat × Nat × Nat × Nat) × Rng
  | 0, g => ([], g)
  | n + 1, g =>
    let (r, g1) := drawRect g
    let (rest, g2) := drawRects n g1
    (r :: rest, g2)

/-- The 8-byte signature every PNG file begins with; `img.save(..., format='PNG')`
always emits it first, so the saved bytes are never empty. -/
def pngSignature : List Nat := [137, 80, 78, 71, 13, 10, 26, 10]

/-- Byte serialization of the drawn image, abstracted to its drawing
parameters: background colour, rectangle outlines, and the two text lines.
The exact PNG chunk encoding of PIL is outside the repository; what matters
to the claims is that the output starts with the PNG signature and records
the randomly drawn content. -/
def encodeImage (color : Nat × Nat × Nat) (rects : List (Nat × Nat × Nat × Nat))
    (texts : List String) : List Nat :=
  [color.1, color.2.1, color.2.2] ++
    (rects.map fun r => [r.1, r.2.1, r.2.2.1, r.2.2.2]).flatten ++
    texts.map String.length

/-- `PILImageProvider.generate_image` (lines 585-623): a 1024×1024 image with
a random background colour (`random.randint(50, 200)` per channel), ten
random rectangle outlines, the prompt truncated to 50 characters and a
caption, saved as PNG bytes.  The `except` arm (returning `None`) is
unreachable here since the body cannot raise. -/
def PILImageProvider_generate_image (prompt : String) (g : Rng) : List Nat × Rng :=
  let (r, g1) := randint 50 200 g
  let (gg, g2) := randint 50 200 g1
  let (b, g3) := randint 50 200 g2
  let (rects, g4) := drawRects 10 g3
  let texts := [pyTake prompt 50, "Generated via PIL Fallback"]
  (pngSignature ++ encodeImage (r, gg, b) rects texts, g4)

/-- One entry of `UserSession.history`. -/
structure HistoryEntry where
  timestamp : Nat
  command : String
  prompt : String
  result_preview : String
deriving Repr, DecidableEq

/-- `UserSession.add_to_history` (lines 1098-1108): append an entry whose
`result_preview` is `result[:100] if result else ""`, then keep only the
most recent 50 entries.  `now` models `datetime.now()`. -/
def add_to_history (now : Nat) (command prompt result : String)
    (history : List HistoryEntry) : List HistoryEntry :=
  let history := history ++
    [⟨now, command, prompt, if result ≠ "" then pyTake result 100 else ""⟩]
  if history.length > 50 then history.drop (history.length - 50) else history

/-- Record `n` history entries in a fresh session, the entry recorded at tick
`i` carrying timestamp `i`. -/
def recordMany (n : Nat) : List HistoryEntry :=
  (List.range n).foldl (fun h i => add_to_history i "/gen" "p" "r" h) []

/-- Total number of attempts a provider list has absorbed into its stats. -/
def totalAttempts (ps : List (Provider α)) : Nat :=
  (ps.map fun p => p.stats.success + p.stats.failure).sum

/-- The failure-updated provider list: each provider of `pre` with one failure
recorded, at consecutive ticks starting from `t`. -/
def failAll (t : Nat) : List (Provider α) → List (Provider α)
  | [] => []
  | q :: qs => { q with stats := update_stats false t q.stats } :: failAll (t + 1) qs

theorem fallbackLoop_fail_cons (truthy : α → Bool) (t : Nat) (p : Provider α)
    (rest : List (Provider α)) (hp : outcomeFails truthy p.attempt = true) :
    fallbackLoop truthy t (p :: rest) =
      ⟨(fallbackLoop truthy (t + 1) rest).payload,
       (fallbackLoop truthy (t + 1) rest).providerName,
       { p with stats := update_stats false t p.stats } ::
         (fallbackLoop truthy (t + 1) rest).providers,
       p.name :: (fallbackLoop truthy (t + 1) rest).invoked⟩ := by
  match h : p.attempt with
  | .raises => simp [fallbackLoop, h]
  | .returns none => simp [fallbackLoop, h]
  | .returns (some v) =>
    rw [h] at hp
    simp only [outcomeFails, optTruthy, Bool.not_eq_true'] at hp
    simp [fallbackLoop, h, hp]

theorem fallbackLoop_hit_cons (truthy : α → Bool) (t : Nat) (p : Provider α)
    (rest : List (Provider α)) (v : α) (hv : p.attempt = .returns (some v))
    (ht : truthy v = true) :
    fallbackLoop truthy t (p :: rest) =
      ⟨some v, p.name, { p with stats := update_stats true t p.stats } :: rest,
       [p.name]⟩ := by
  simp [fallbackLoop, hv, ht]

theorem fallbackLoop_skip_failing (truthy : α → Bool) (t : Nat)
    (pre l : List (Provider α))
    (hpre : ∀ q ∈ pre, outcomeFails truthy q.attempt = true) :
    fallbackLoop truthy t (pre ++ l) =
      ⟨(fallbackLoop truthy (t + pre.length) l).payload,
       (fallbackLoop truthy (t + pre.length) l).providerName,
       failAll t pre ++ (fallbackLoop truthy (t + pre.length) l).providers,
       pre.map (fun q => q.name) ++
         (fallbackLoop truthy (t + pre.length) l).invoked⟩ := by
  induction pre generalizing t with
  | nil => simp [failAll]
  | cons q qs ih =>
    have hq : outcomeFails truthy q.attempt = true := hpre q (by simp)
    have hqs : ∀ r ∈ qs, outcomeFails truthy r.attempt = true :=
      fun r hr => hpre r (by simp [hr])
    rw [List.cons_append, fallbackLoop_fail_cons truthy t q (qs ++ l) hq,
      ih (t + 1) hqs]
    have harith : t + 1 + qs.length = t + (qs.length + 1) := by omega
    simp [failAll, harith]

/-- C1: for every capability (any payload truthiness) and every provider
list, when every provider before `p` fails and `p` returns a truthy payload
`v`, the fallback call returns `(some v, p.name)`, records exactly one
success on `p` (success up by one, failure unchanged), leaves every later
provider untouched, and invokes no provider after `p` (the invoked names are
exactly those of the failing prefix followed by `p`). -/
theorem fallback_first_success_short_circuits (truthy : α → Bool) (t : Nat)
    (pre post : List (Provider α)) (p : Provider α) (v : α)
    (hpre : ∀ q ∈ pre, outcomeFails truthy q.attempt = true)
    (hv : p.attempt = .returns (some v)) (ht : truthy v = true) :
    fallbackLoop truthy t (pre ++ p :: post) =
      ⟨some v, p.name,
       failAll t pre ++
         { p with stats := update_stats true (t + pre.length) p.stats } :: post,
       pre.map (fun q => q.name) ++ [p.name]⟩ ∧
    (update_stats true (t + pre.length) p.stats).success = p.stats.success + 1 ∧
    (update_stats true (t + pre.length) p.stats).failure = p.stats.failure := by
  refine ⟨?_, by simp [update_stats], by simp [update_stats]⟩
  rw [fallbackLoop_skip_failing truthy t pre (p :: post) hpre,
    fallbackLoop_hit_cons truthy (t + pre.length) p post v hv ht]

/-- Closed instance of `fallback_first_success_short_circuits`: two failing
text providers, then one returning "ok", then a never-reached fourth. -/
theorem fallback_first_success_short_circuits_witness :
    (∀ q ∈ [Provider.mk "P1" 1 stats0 (Outcome.raises (α := String)),
            Provider.mk "P2" 2 stats0 (Outcome.returns none)],
        outcomeFails textTruthy q.attempt = true) ∧
    fallbackLoop textTruthy 0
        ([⟨"P1", 1, stats0, .raises⟩, ⟨"P2", 2, stats0, .returns none⟩] ++
          ⟨"P3", 3, stats0, .returns (some "ok")⟩ ::
            [⟨"P4", 4, stats0, .returns (some "never")⟩]) =
      ⟨some "ok", "P3",
       failAll 0 [⟨"P1", 1, stats0, .raises⟩, ⟨"P2", 2, stats0, .returns none⟩] ++
         ⟨"P3", 3, ⟨1, 0, some 2⟩, .returns (some "ok")⟩ ::
           [⟨"P4", 4, stats0, .returns (some "never")⟩],
       ["P1", "P2", "P3"]⟩ ∧
    (update_stats true 2 stats0).success = stats0.success + 1 ∧
    (update_stats true 2 stats0).failure = stats0.failure :=
  have h := fallback_first_success_short_circuits textTruthy 0
    [⟨"P1", 1, stats0, .raises⟩, ⟨"P2", 2, stats0, .returns none⟩]
    [⟨"P4", 4, stats0, .returns (some "never")⟩]
    ⟨"P3", 3, stats0, .returns (some "ok")⟩ "ok"
    (by decide) rfl (by decide)
  ⟨by decide, by rw [h.1]; decide, h.2.1, h.2.2⟩

/-- C2: for every capability, a provider whose attempt raises or returns a
falsy result gets exactly one failure recorded (failure up by one, success
unchanged) and the call proceeds to the remaining providers: the returned
payload and provider name are those of the run over the rest of the list, so
no single provider's failure aborts the whole operation. -/
theorem fallback_failure_isolated (truthy : α → Bool) (t : Nat)
    (p : Provider α) (rest : List (Provider α))
    (hp : outcomeFails truthy p.attempt = true) :
    (fallbackLoop truthy t (p :: rest)).payload =
        (fallbackLoop truthy (t + 1) rest).payload ∧
    (fallbackLoop truthy t (p :: rest)).providerName =
        (fallbackLoop truthy (t + 1) rest).providerName ∧
    (fallbackLoop truthy t (p :: rest)).providers =
        { p with stats := update_stats false t p.stats } ::
          (fallbackLoop truthy (t + 1) rest).providers ∧
    (fallbackLoop truthy t (p :: rest)).invoked =
        p.name :: (fallbackLoop truthy (t + 1) rest).invoked ∧
    (update_stats false t p.stats).failure = p.stats.failure + 1 ∧
    (update_stats false t p.stats).success = p.stats.success := by
  rw [fallbackLoop_fail_cons truthy t p rest hp]
  exact ⟨rfl, rfl, rfl, rfl, by simp [update_stats], by simp [update_stats]⟩

/-- Closed instance of `fallback_failure_isolated`: a raising provider in
front of a succeeding one; the failure is recorded and the second provider
still answers. -/
theorem fallback_failure_isolated_witness :
    outcomeFails textTruthy (Outcome.raises (α := String)) = true ∧
    (fallbackLoop textTruthy 0
        [⟨"P1", 1, stats0, .raises⟩, ⟨"P2", 2, stats0, .returns (some "ok")⟩]).payload =
      (fallbackLoop textTruthy 1 [⟨"P2", 2, stats0, .returns (some "ok")⟩]).payload ∧
    (fallbackLoop textTruthy 0
        [⟨"P1", 1, stats0, .raises⟩, ⟨"P2", 2, stats0, .returns (some "ok")⟩]).invoked =
      "P1" :: (fallbackLoop textTruthy 1 [⟨"P2", 2, stats0, .returns (some "ok")⟩]).invoked :=
  have h := fallback_failure_isolated textTruthy 0
    ⟨"P1", 1, stats0, .raises⟩ [⟨"P2", 2, stats0, .returns (some "ok")⟩] (by decide)
  ⟨by decide, h.1, h.2.2.2.1⟩

/-- C4: for every capability, the fallback call on the empty provider list
returns the failure sentinel `(None, "All providers failed")`, invokes no
attempt and leaves the (empty) provider state unchanged — with zero
registered providers no stats counter is touched; and whenever every
provider of the list yields no result (raises or returns a falsy payload),
the call returns the sentinel payload `None` with the sentinel string in
place of a provider name, having invoked each provider in order and
recorded exactly one failure on each. -/
theorem fallback_all_fail_sentinel (truthy : α → Bool) (t : Nat) :
    fallbackLoop truthy t ([] : List (Provider α)) =
      ⟨none, "All providers failed", [], []⟩ ∧
    ∀ ps : List (Provider α), (∀ q ∈ ps, outcomeFails truthy q.attempt = true) →
      fallbackLoop truthy t ps =
        ⟨none, "All providers failed", failAll t ps, ps.map fun q => q.name⟩ := by
  refine ⟨rfl, fun ps hps => ?_⟩
  have h := fallbackLoop_skip_failing truthy t ps [] hps
  rw [List.append_nil] at h
  rw [h]
  simp [fallbackLoop]

/-- Closed instance of `fallback_all_fail_sentinel`: the empty image-provider
list, and a two-provider list where both fail — the sentinel pair comes
back, one failure lands on each provider, both are invoked in order. -/
theorem fallback_all_fail_sentinel_witness :
    fallbackLoop bytesTruthy 0 ([] : List (Provider (List Nat))) =
      ⟨none, "All providers failed", [], []⟩ ∧
    (∀ q ∈ [Provider.mk "I1" 1 stats0 (Outcome.returns (none : Option (List Nat))),
            Provider.mk "I2" 2 stats0 (Outcome.returns (some ([] : List Nat)))],
        outcomeFails bytesTruthy q.attempt = true) ∧
    fallbackLoop bytesTruthy 0
        [⟨"I1", 1, stats0, .returns none⟩, ⟨"I2", 2, stats0, .returns (some [])⟩] =
      ⟨none, "All providers failed",
       [⟨"I1", 1, ⟨0, 1, some 0⟩, .returns none⟩,
        ⟨"I2", 2, ⟨0, 1, some 1⟩, .returns (some [])⟩],
       ["I1", "I2"]⟩ := by
  have h := fallback_all_fail_sentinel bytesTruthy 0
  refine ⟨h.1, by decide, ?_⟩
  rw [h.2 [⟨"I1", 1, stats0, .returns none⟩, ⟨"I2", 2, stats0, .returns (some [])⟩]
    (by decide)]
  decide

theorem fallbackLoop_payload_truthy (truthy : α → Bool) (t : Nat)
    (ps : List (Provider α)) (w : α)
    (hw : (fallbackLoop truthy t ps).payload = some w) : truthy w = true := by
  induction ps generalizing t with
  | nil => simp [fallbackLoop] at hw
  | cons p rest ih =>
    match h : p.attempt with
    | .raises =>
      rw [fallbackLoop_fail_cons truthy t p rest (by simp [outcomeFails, h])] at hw
      exact ih (t + 1) hw
    | .returns none =>
      rw [fallbackLoop_fail_cons truthy t p rest
        (by simp [outcomeFails, h, optTruthy])] at hw
      exact ih (t + 1) hw
    | .returns (some v) =>
      by_cases htv : truthy v = true
      · rw [fallbackLoop_hit_cons truthy t p rest v h htv] at hw
        cases hw
        exact htv
      · rw [fallbackLoop_fail_cons truthy t p rest
          (by simp [outcomeFails, h, optTruthy, Bool.not_eq_true] at htv ⊢; exact htv)] at hw
        exact ih (t + 1) hw

/-- C10: a present but falsy payload (the empty string for text, the empty
byte string for an image) is treated exactly like `None`: the run with
`returns (some v)` where `v` is falsy agrees with the run with
`returns None` in that position on the returned payload and provider name,
on the invoked providers, and on every provider's stats after the call; and
every successful fallback outcome carries a truthy (non-empty) payload. -/
theorem fallback_empty_payload_is_failure (truthy : α → Bool) (t : Nat)
    (nm : String) (pr : Int) (s : Stats) (v : α) (rest : List (Provider α))
    (hv : truthy v = false) :
    ((fallbackLoop truthy t (⟨nm, pr, s, .returns (some v)⟩ :: rest)).payload =
        (fallbackLoop truthy t (⟨nm, pr, s, .returns none⟩ :: rest)).payload ∧
      (fallbackLoop truthy t (⟨nm, pr, s, .returns (some v)⟩ :: rest)).providerName =
        (fallbackLoop truthy t (⟨nm, pr, s, .returns none⟩ :: rest)).providerName ∧
      (fallbackLoop truthy t (⟨nm, pr, s, .returns (some v)⟩ :: rest)).invoked =
        (fallbackLoop truthy t (⟨nm, pr, s, .returns none⟩ :: rest)).invoked ∧
      (fallbackLoop truthy t
          (⟨nm, pr, s, .returns (some v)⟩ :: rest)).providers.map
          (fun q => (q.name, q.priority, q.stats)) =
        (fallbackLoop truthy t
          (⟨nm, pr, s, .returns none⟩ :: rest)).providers.map
          (fun q => (q.name, q.priority, q.stats))) ∧
    ∀ (ps : List (Provider α)) (w : α),
      (fallbackLoop truthy t ps).payload = some w → truthy w = true := by
  constructor
  · rw [fallbackLoop_fail_cons truthy t ⟨nm, pr, s, .returns (some v)⟩ rest
      (by simp [outcomeFails, optTruthy, hv]),
      fallbackLoop_fail_cons truthy t ⟨nm, pr, s, .returns none⟩ rest
      (by simp [outcomeFails, optTruthy])]
    exact ⟨rfl, rfl, rfl, rfl⟩
  · exact fun ps w hw => fallbackLoop_payload_truthy truthy t ps w hw

/-- Closed instance of `fallback_empty_payload_is_failure`: a provider
returning the empty string behaves exactly like one returning `None`, and
the concrete successful payload "ok" is indeed truthy. -/
theorem fallback_empty_payload_is_failure_witness :
    textTruthy "" = false ∧
    (fallbackLoop textTruthy 0
        (⟨"P1", 1, stats0, .returns (some "")⟩ ::
          [⟨"P2", 2, stats0, .returns (some "ok")⟩])).payload =
      (fallbackLoop textTruthy 0
        (⟨"P1", 1, stats0, .returns none⟩ ::
          [⟨"P2", 2, stats0, .returns (some "ok")⟩])).payload ∧
    ((fallbackLoop textTruthy 0
        [⟨"P1", 1, stats0, .returns (some "")⟩,
         ⟨"P2", 2, stats0, .returns (some "ok")⟩]).payload = some "ok" →
      textTruthy "ok" = true) :=
  have h := fallback_empty_payload_is_failure textTruthy 0 "P1" 1 stats0 ""
    [⟨"P2", 2, stats0, .returns (some "ok")⟩] (by decide)
  ⟨by decide, h.1.1,
    fun hp => h.2 [⟨"P1", 1, stats0, .returns (some "")⟩,
      ⟨"P2", 2, stats0, .returns (some "ok")⟩] "ok" hp⟩

theorem mem_insertByPriority (p x : Provider α) (l : List (Provider α)) :
    x ∈ insertByPriority p l ↔ x = p ∨ x ∈ l := by
  induction l with
  | nil => simp [insertByPriority]
  | cons q rest ih =>
    by_cases h : p.priority ≤ q.priority
    · simp [insertByPriority, h]
    · simp [insertByPriority, h, ih]
      tauto

theorem sortedByPriority_insertByPriority (p : Provider α) (l : List (Provider α))
    (hl : sortedByPriority l) : sortedByPriority (insertByPriority p l) := by
  induction l with
  | nil => simp [insertByPriority, sortedByPriority]
  | cons q rest ih =>
    rw [sortedByPriority, List.pairwise_cons] at hl
    by_cases h : p.priority ≤ q.priority
    · rw [sortedByPriority, insertByPriority]
      simp only [h, if_true]
      rw [List.pairwise_cons]
      refine ⟨fun x hx => ?_, List.pairwise_cons.mpr hl⟩
      rcases List.mem_cons.mp hx with rfl | hx
      · exact h
      · exact le_trans h (hl.1 x hx)
    · rw [sortedByPriority, insertByPriority]
      simp only [h, if_false]
      rw [List.pairwise_cons]
      refine ⟨fun x hx => ?_, ih hl.2⟩
      rcases (mem_insertByPriority p x rest).mp hx with rfl | hx
      · exact le_of_not_le h
      · exact hl.1 x hx

theorem sortByPriority_sorted (l : List (Provider α)) :
    sortedByPriority (sortByPriority l) := by
  induction l with
  | nil => simp [sortByPriority, sortedByPriority]
  | cons p rest ih => exact sortedByPriority_insertByPriority p (sortByPriority rest) ih

/-- C3 (code bug): `ProviderManager` initialization never completes, so the
claimed post-initialization sorted registry never exists.  Evaluating the
image-provider list literal of `_init_providers` raises `TypeError` at
`PuterGPTImageProvider("GPT Image", priority=7)` (line 108: the class
defines no `__init__`, so the inherited `AIProvider.__init__` is called
without its required `provider_type` argument), and the text list likewise
at `PuterGeminiFlashProvider("Gemini 3 Flash", priority=8)` (line 141);
since `provider_manager = ProviderManager()` runs at module scope
(line 1081), the program dies on import.  The claim captures the intent:
the registries as written carry ascending priorities (1..9 and 1..10), so
had the constructions succeeded, Python's stable sort would have left them
unchanged and sorted — the intended lists are fixed points of
`sortByPriority` and satisfy `sortedByPriority`. -/
theorem init_providers_raises_type_error
    (atti : Nat → Outcome (List Nat)) (attt : Nat → Outcome String) :
    buildRegistry atti 0 image_constructor_calls = .error typeErrorMissingArg ∧
    buildRegistry attt 0 text_constructor_calls = .error typeErrorMissingArg ∧
    sortByPriority (image_registration atti) = image_registration atti ∧
    sortByPriority (text_registration attt) = text_registration attt ∧
    sortedByPriority (image_registration atti) ∧
    sortedByPriority (text_registration attt) := by
  refine ⟨rfl, rfl, rfl, rfl, ?_, ?_⟩
  · have hid : sortByPriority (image_registration atti) = image_registration atti := rfl
    exact hid ▸ sortByPriority_sorted (image_registration atti)
  · have hid : sortByPriority (text_registration attt) = text_registration attt := rfl
    exact hid ▸ sortByPriority_sorted (text_registration attt)

theorem update_stats_total (b : Bool) (now : Nat) (s : Stats) :
    (update_stats b now s).success + (update_stats b now s).failure =
      s.success + s.failure + 1 := by
  cases b <;> simp [update_stats] <;> omega

theorem update_stats_success_le (b : Bool) (now : Nat) (s : Stats) :
    s.success ≤ (update_stats b now s).success := by
  cases b <;> simp [update_stats]

theorem update_stats_failure_le (b : Bool) (now : Nat) (s : Stats) :
    s.failure ≤ (update_stats b now s).failure := by
  cases b <;> simp [update_stats]

/-- C5 (amended): per provider, the fallback operations keep the stats
ledger exact.  One fallback call invokes exactly the providers of an
initial prefix of the list (the invoked names are those providers' names in
order); the provider at each invoked position comes out with
`success + failure` grown by exactly one — one stats update per attempt,
charged to the attempted provider itself — every provider past the invoked
prefix keeps its stats unchanged, and no counter ever decreases.  (The
`genall` / `askall` / `genfast` command paths invoke attempts without
updating stats, so the equality does not extend to them — see the
counterexample.) -/
theorem fallback_stats_count_attempts (truthy : α → Bool) (t : Nat)
    (ps : List (Provider α)) :
    (fallbackLoop truthy t ps).invoked =
      (ps.take (fallbackLoop truthy t ps).invoked.length).map (fun p => p.name) ∧
    (fallbackLoop truthy t ps).providers.length = ps.length ∧
    ∀ i, i < ps.length →
      ∃ p q, ps[i]? = some p ∧
        (fallbackLoop truthy t ps).providers[i]? = some q ∧
        q.name = p.name ∧ q.priority = p.priority ∧
        q.stats.success + q.stats.failure =
          p.stats.success + p.stats.failure +
            (if i < (fallbackLoop truthy t ps).invoked.length then 1 else 0) ∧
        p.stats.success ≤ q.stats.success ∧
        p.stats.failure ≤ q.stats.failure ∧
        (¬ i < (fallbackLoop truthy t ps).invoked.length → q.stats = p.stats) := by
  induction ps generalizing t with
  | nil =>
    refine ⟨rfl, rfl, fun i hi => ?_⟩
    simp at hi
  | cons p rest ih =>
    by_cases hfail : outcomeFails truthy p.attempt = true
    · have hc := fallbackLoop_fail_cons truthy t p rest hfail
      obtain ⟨ih1, ih2, ih3⟩ := ih (t + 1)
      have hinv : (fallbackLoop truthy t (p :: rest)).invoked =
          p.name :: (fallbackLoop truthy (t + 1) rest).invoked := by rw [hc]
      have hprov : (fallbackLoop truthy t (p :: rest)).providers =
          { p with stats := update_stats false t p.stats } ::
            (fallbackLoop truthy (t + 1) rest).providers := by rw [hc]
      refine ⟨?_, ?_, ?_⟩
      · rw [hinv, List.length_cons, List.take_succ_cons, List.map_cons]
        exact congrArg (fun l => p.name :: l) ih1
      · rw [hprov, List.length_cons, List.length_cons, ih2]
      · intro i hi
        match i with
        | 0 =>
          refine ⟨p, { p with stats := update_stats false t p.stats },
            by rw [List.getElem?_cons_zero], by rw [hprov, List.getElem?_cons_zero],
            rfl, rfl, ?_, update_stats_success_le false t p.stats,
            update_stats_failure_le false t p.stats, ?_⟩
          · rw [hinv, List.length_cons, update_stats_total, if_pos (Nat.succ_pos _)]
          · rw [hinv, List.length_cons]
            exact fun hh => absurd (Nat.succ_pos _) hh
        | j + 1 =>
          have hj : j < rest.length := by
            simp only [List.length_cons] at hi
            omega
          obtain ⟨p2, q2, hp2, hq2, hname, hpri, htot, hs, hf, huninv⟩ := ih3 j hj
          refine ⟨p2, q2, ?_, ?_, hname, hpri, ?_, hs, hf, ?_⟩
          · rw [List.getElem?_cons_succ]
            exact hp2
          · rw [hprov, List.getElem?_cons_succ]
            exact hq2
          · rw [hinv, List.length_cons]
            simpa [Nat.add_lt_add_iff_right] using htot
          · rw [hinv, List.length_cons]
            intro hh
            exact huninv (fun hlt => hh (by omega))
    · have hfail2 : outcomeFails truthy p.attempt = false := by
        simpa using hfail
      match hatt : p.attempt with
      | .raises => rw [hatt] at hfail2; simp [outcomeFails] at hfail2
      | .returns none => rw [hatt] at hfail2; simp [outcomeFails, optTruthy] at hfail2
      | .returns (some v) =>
        rw [hatt] at hfail2
        have htv : truthy v = true := by
          simpa [outcomeFails, optTruthy] using hfail2
        have hc := fallbackLoop_hit_cons truthy t p rest v hatt htv
        have hinv : (fallbackLoop truthy t (p :: rest)).invoked = [p.name] := by rw [hc]
        have hprov : (fallbackLoop truthy t (p :: rest)).providers =
            { p with stats := update_stats true t p.stats } :: rest := by rw [hc]
        refine ⟨by rw [hinv]; simp, by rw [hprov]; simp, ?_⟩
        intro i hi
        match i with
        | 0 =>
          refine ⟨p, { p with stats := update_stats true t p.stats },
            by rw [List.getElem?_cons_zero], by rw [hprov, List.getElem?_cons_zero],
            rfl, rfl, ?_, update_stats_success_le true t p.stats,
            update_stats_failure_le true t p.stats, ?_⟩
          · rw [hinv, List.length_cons, update_stats_total, if_pos (Nat.succ_pos _)]
          · rw [hinv, List.length_cons]
            exact fun hh => absurd (Nat.succ_pos _) hh
        | j + 1 =>
          have hj : j < rest.length := by
            simp only [List.length_cons] at hi
            omega
          refine ⟨rest[j], rest[j], ?_, ?_, rfl, rfl, ?_, le_refl _, le_refl _,
            fun _ => rfl⟩
          · rw [List.getElem?_cons_succ]
            exact List.getElem?_eq_getElem hj
          · rw [hprov, List.getElem?_cons_succ]
            exact List.getElem?_eq_getElem hj
          · rw [hinv]
            simp

/-- Closed instance of `fallback_stats_count_attempts`: a two-provider text
list whose first provider raises; at position zero the provider was invoked
and its counters grew by exactly one. -/
theorem fallback_stats_count_attempts_witness :
    0 < ([⟨"P1", 1, stats0, .raises⟩,
          ⟨"P2", 2, stats0, .returns (some "ok")⟩] : List (Provider String)).length ∧
    ∃ p q,
      ([⟨"P1", 1, stats0, .raises⟩, ⟨"P2", 2, stats0, .returns (some "ok")⟩] :
          List (Provider String))[0]? = some p ∧
      (fallbackLoop textTruthy 0
        [⟨"P1", 1, stats0, .raises⟩,
         ⟨"P2", 2, stats0, .returns (some "ok")⟩]).providers[0]? = some q ∧
      q.name = p.name ∧ q.priority = p.priority ∧
      q.stats.success + q.stats.failure =
        p.stats.success + p.stats.failure +
          (if 0 < (fallbackLoop textTruthy 0
              [⟨"P1", 1, stats0, .raises⟩,
               ⟨"P2", 2, stats0, .returns (some "ok")⟩]).invoked.length
            then 1 else 0) ∧
      p.stats.success ≤ q.stats.success ∧
      p.stats.failure ≤ q.stats.failure ∧
      (¬ 0 < (fallbackLoop textTruthy 0
          [⟨"P1", 1, stats0, .raises⟩,
           ⟨"P2", 2, stats0, .returns (some "ok")⟩]).invoked.length →
        q.stats = p.stats) :=
  ⟨by decide,
    (fallback_stats_count_attempts textTruthy 0
      [⟨"P1", 1, stats0, .raises⟩,
       ⟨"P2", 2, stats0, .returns (some "ok")⟩]).2.2 0 (by decide)⟩

/-- Counterexample to C5 as stated: `genall_command` invokes the single
provider's attempt once (the invoked list has length one) yet leaves its
stats untouched, so `success + failure` does not equal the number of times
the provider was attempted once `genall` runs are included. -/
theorem genall_breaks_stats_equality :
    (genall_command bytesTruthy
        [⟨"Pollinations AI", 3, stats0, .returns (some [1])⟩]).invoked.length = 1 ∧
    (genall_command bytesTruthy
        [⟨"Pollinations AI", 3, stats0, .returns (some [1])⟩]).providers =
      [⟨"Pollinations AI", 3, stats0, .returns (some [1])⟩] ∧
    ¬ (totalAttempts (genall_command bytesTruthy
          [⟨"Pollinations AI", 3, stats0, .returns (some [1])⟩]).providers =
        totalAttempts [⟨"Pollinations AI", 3, stats0, .returns (some [1])⟩] +
          (genall_command bytesTruthy
            [⟨"Pollinations AI", 3, stats0, .returns (some [1])⟩]).invoked.length) := by
  refine ⟨rfl, rfl, ?_⟩
  decide

theorem genallLoop_spec (truthy : α → Bool) (ps : List (Provider α)) :
    genallLoop truthy ps =
      ((ps.filter fun p => !outcomeFails truthy p.attempt).length,
       ps.filterMap (fun p =>
         match p.attempt with
         | .returns (some v) => if truthy v then some (p.name, v) else none
         | .returns none => none
         | .raises => none),
       ps.map fun p => p.name) := by
  induction ps with
  | nil => rfl
  | cons p rest ih =>
    match h : p.attempt with
    | .raises => simp [genallLoop, h, ih, List.filter_cons, outcomeFails]
    | .returns none =>
      simp [genallLoop, h, ih, List.filter_cons, outcomeFails, optTruthy]
    | .returns (some v) =>
      by_cases htv : truthy v = true
      · simp [genallLoop, h, htv, ih, List.filter_cons, outcomeFails, optTruthy]
      · simp only [Bool.not_eq_true] at htv
        simp [genallLoop, h, htv, ih, List.filter_cons, outcomeFails, optTruthy]

theorem askallLoop_spec (truthy : String → Bool) (ps : List (Provider String)) :
    askallLoop truthy ps =
      (ps.filterMap (fun p =>
         match p.attempt with
         | .returns (some v) =>
           if truthy v then some (p.name, pyTake v 200 ++ "...") else none
         | .returns none => none
         | .raises => none),
       ps.map fun p => p.name) := by
  induction ps with
  | nil => rfl
  | cons p rest ih =>
    match h : p.attempt with
    | .raises => simp [askallLoop, h, ih]
    | .returns none => simp [askallLoop, h, ih]
    | .returns (some v) =>
      by_cases htv : truthy v = true
      · simp [askallLoop, h, htv, ih]
      · simp only [Bool.not_eq_true] at htv
        simp [askallLoop, h, htv, ih]

/-- C6 (amended): `genall_command` invokes every provider of the given list
exactly once whatever the individual outcomes (the invoked names are exactly
the provider names in order), collects every truthy result with its
provider's name, reports a success count equal to the number of providers
whose attempt returned truthy, and changes no provider; `askall_command`
(the text capability's query-all path) does the same but only over the
first five providers of the list — providers beyond the fifth are never
invoked. -/
theorem genall_invokes_every_provider (truthy : α → Bool)
    (ps : List (Provider α)) (truthyT : String → Bool)
    (tps : List (Provider String)) :
    (genall_command truthy ps).invoked = ps.map (fun p => p.name) ∧
    (genall_command truthy ps).successful =
      (ps.filter fun p => !outcomeFails truthy p.attempt).length ∧
    (genall_command truthy ps).results =
      ps.filterMap (fun p =>
        match p.attempt with
        | .returns (some v) => if truthy v then some (p.name, v) else none
        | .returns none => none
        | .raises => none) ∧
    (genall_command truthy ps).providers = ps ∧
    (askall_command truthyT tps).2.2 = (tps.take 5).map (fun p => p.name) ∧
    (askall_command truthyT tps).2.1 = tps := by
  refine ⟨?_, ?_, ?_, rfl, ?_, rfl⟩
  · simp [genall_command, genallLoop_spec]
  · simp [genall_command, genallLoop_spec]
  · simp [genall_command, genallLoop_spec]
  · simp [askall_command, askallLoop_spec]

/-- Counterexample to C6 as stated: with all ten registered text providers
answering "ok", `askall_command` invokes only the first five — the invoked
list is not the full name list, and the backstop "Simple Fallback" is never
attempted. -/
theorem askall_misses_text_providers :
    (askall_command textTruthy
        (sortByPriority (text_registration fun _ => .returns (some "ok")))).2.2 =
      ["Puter Gemini 3.1 Pro", "Puter GPT-5.2", "OpenRouter Gemini",
       "Duck.ai Chat", "NanoBanana-Pro Text"] ∧
    ¬ ((askall_command textTruthy
          (sortByPriority (text_registration fun _ => .returns (some "ok")))).2.2 =
        (sortByPriority (text_registration fun _ => .returns (some "ok"))).map
          (fun p => p.name)) ∧
    "Simple Fallback" ∉
      (askall_command textTruthy
        (sortByPriority (text_registration fun _ => .returns (some "ok")))).2.2 := by
  refine ⟨rfl, ?_, ?_⟩ <;> decide

theorem string_data_append (a b : String) : (a ++ b).data = a.data ++ b.data := rfl

theorem string_eq_empty_of_data_nil (a : String) (h : a.data = []) : a = "" := by
  cases a with
  | mk d => cases h; decide

theorem string_append_ne_empty (a b : String) (h : a ≠ "") : a ++ b ≠ "" := by
  intro hc
  have hd : (a ++ b).data = ("" : String).data := congrArg String.data hc
  have he : ("" : String).data = [] := by decide
  rw [string_data_append, he] at hd
  exact h (string_eq_empty_of_data_nil a (List.append_eq_nil.mp hd).1)

theorem ruleBased_text_nonempty (prompt : String) (g : Rng) :
    textTruthy (RuleBasedProvider_generate_text prompt g).1 = true := by
  have hlen : (ruleBasedResponses prompt).length = 3 := rfl
  have hmod : List.headD g 0 % (ruleBasedResponses prompt).length < 3 := by
    rw [hlen]
    exact Nat.mod_lt _ (by omega)
  rw [RuleBasedProvider_generate_text, choice]
  simp only [textTruthy, ne_eq, decide_eq_true_eq]
  interval_cases h : List.headD g 0 % (ruleBasedResponses prompt).length
  · exact string_append_ne_empty _ _ (string_append_ne_empty _ _ (by decide))
  · exact string_append_ne_empty _ _ (by decide)
  · exact string_append_ne_empty _ _ (by decide)

theorem pil_image_nonempty (prompt : String) (g : Rng) :
    bytesTruthy (PILImageProvider_generate_image prompt g).1 = true := by
  simp [bytesTruthy, PILImageProvider_generate_image, pngSignature]

/-- C7: the deterministic backstops always produce a truthy payload — the
rule-engine text (one of three non-empty templates) and the PIL image bytes
(which begin with the PNG signature) are never empty — and when such a
backstop is registered last while every earlier provider fails (raises or
returns a falsy result), the fallback call still succeeds and attributes the
result to the backstop ("Simple Fallback" for text, "PIL Fallback" for
images). -/
theorem backstop_terminates_fallback (t : Nat) (prompt : String) (g g2 : Rng)
    (s s2 : Stats) (preT : List (Provider String))
    (preI : List (Provider (List Nat)))
    (hT : ∀ q ∈ preT, outcomeFails textTruthy q.attempt = true)
    (hI : ∀ q ∈ preI, outcomeFails bytesTruthy q.attempt = true) :
    textTruthy (RuleBasedProvider_generate_text prompt g).1 = true ∧
    bytesTruthy (PILImageProvider_generate_image prompt g2).1 = true ∧
    (fallbackLoop textTruthy t (preT ++
        [⟨"Simple Fallback", 10, s,
          .returns (some (RuleBasedProvider_generate_text prompt g).1)⟩])).payload =
      some (RuleBasedProvider_generate_text prompt g).1 ∧
    (fallbackLoop textTruthy t (preT ++
        [⟨"Simple Fallback", 10, s,
          .returns (some (RuleBasedProvider_generate_text prompt g).1)⟩])).providerName =
      "Simple Fallback" ∧
    (fallbackLoop bytesTruthy t (preI ++
        [⟨"PIL Fallback", 9, s2,
          .returns (some (PILImageProvider_generate_image prompt g2).1)⟩])).payload =
      some (PILImageProvider_generate_image prompt g2).1 ∧
    (fallbackLoop bytesTruthy t (preI ++
        [⟨"PIL Fallback", 9, s2,
          .returns (some (PILImageProvider_generate_image prompt g2).1)⟩])).providerName =
      "PIL Fallback" := by
  have ht := ruleBased_text_nonempty prompt g
  have hi := pil_image_nonempty prompt g2
  have hrunT := fallbackLoop_skip_failing textTruthy t preT
    [⟨"Simple Fallback", 10, s,
      .returns (some (RuleBasedProvider_generate_text prompt g).1)⟩] hT
  have hhitT := fallbackLoop_hit_cons textTruthy (t + preT.length)
    ⟨"Simple Fallback", 10, s,
      .returns (some (RuleBasedProvider_generate_text prompt g).1)⟩ []
    (RuleBasedProvider_generate_text prompt g).1 rfl ht
  have hrunI := fallbackLoop_skip_failing bytesTruthy t preI
    [⟨"PIL Fallback", 9, s2,
      .returns (some (PILImageProvider_generate_image prompt g2).1)⟩] hI
  have hhitI := fallbackLoop_hit_cons bytesTruthy (t + preI.length)
    ⟨"PIL Fallback", 9, s2,
      .returns (some (PILImageProvider_generate_image prompt g2).1)⟩ []
    (PILImageProvider_generate_image prompt g2).1 rfl hi
  refine ⟨ht, hi, ?_, ?_, ?_, ?_⟩
  · rw [hrunT, hhitT]
  · rw [hrunT, hhitT]
  · rw [hrunI, hhitI]
  · rw [hrunI, hhitI]

/-- Closed instance of `backstop_terminates_fallback`: one raising text
provider and one empty-result image provider in front of the respective
backstops; both fallback calls are attributed to the backstop. -/
theorem backstop_terminates_fallback_witness :
    (∀ q ∈ [Provider.mk "Puter Gemini 3.1 Pro" 1 stats0 (Outcome.raises (α := String))],
        outcomeFails textTruthy q.attempt = true) ∧
    (∀ q ∈ [Provider.mk "Pollinations AI" 3 stats0
              (Outcome.returns (none : Option (List Nat)))],
        outcomeFails bytesTruthy q.attempt = true) ∧
    (fallbackLoop textTruthy 0
        ([⟨"Puter Gemini 3.1 Pro", 1, stats0, .raises⟩] ++
          [⟨"Simple Fallback", 10, stats0,
            .returns (some (RuleBasedProvider_generate_text "hi" [0]).1)⟩])).providerName =
      "Simple Fallback" ∧
    (fallbackLoop bytesTruthy 0
        ([⟨"Pollinations AI", 3, stats0, .returns none⟩] ++
          [⟨"PIL Fallback", 9, stats0,
            .returns (some (PILImageProvider_generate_image "hi" [0]).1)⟩])).providerName =
      "PIL Fallback" :=
  have h := backstop_terminates_fallback 0 "hi" [0] [0] stats0 stats0
    [⟨"Puter Gemini 3.1 Pro", 1, stats0, .raises⟩]
    [⟨"Pollinations AI", 3, stats0, .returns none⟩]
    (by decide) (by decide)
  ⟨by decide, by decide, h.2.2.2.1, h.2.2.2.2.2⟩

/-- Counterexample to C8 as stated: two successive invocations of the
rule-engine backstop with the same prompt "hi" — the second starting from
the RNG state the first one left behind — return different outputs, and the
first invocation changed the shared RNG state. -/
theorem backstop_not_deterministic :
    (RuleBasedProvider_generate_text "hi" [0, 1]).1 ≠
      (RuleBasedProvider_generate_text "hi"
        ((RuleBasedProvider_generate_text "hi" [0, 1]).2)).1 ∧
    (RuleBasedProvider_generate_text "hi" [0, 1]).2 ≠ [0, 1] := by
  constructor <;> decide

/-- C8 (amended): the backstop providers always return a non-empty payload
and never raise past their boundary, but they are randomized, not
deterministic: the rule engine draws from `random.choice` and the PIL
provider from `random.randint`, each invocation reading and advancing the
process-wide RNG state (the rule engine consumes exactly one draw, leaving
the tail of the stream). -/
theorem backstop_nonempty_but_randomized (prompt : String) (g : Rng) :
    (RuleBasedProvider_generate_text prompt g).1 ≠ "" ∧
    (RuleBasedProvider_generate_text prompt g).2 = List.tail g ∧
    (PILImageProvider_generate_image prompt g).1 ≠ [] := by
  refine ⟨?_, rfl, ?_⟩
  · have h := ruleBased_text_nonempty prompt g
    simpa [textTruthy] using h
  · have h := pil_image_nonempty prompt g
    simpa [bytesTruthy] using h

theorem keepLast50 (l : List HistoryEntry) :
    (if l.length > 50 then l.drop (l.length - 50) else l) = l.drop (l.length - 50) := by
  by_cases hc : l.length > 50
  · simp [hc]
  · have h0 : l.length - 50 = 0 := by omega
    simp [hc, h0]

theorem add_to_history_eq_drop (now : Nat) (c p r : String)
    (h : List HistoryEntry) :
    add_to_history now c p r h =
      (h ++ [(⟨now, c, p, if r ≠ "" then pyTake r 100 else ""⟩ : HistoryEntry)]).drop
        (h.length + 1 - 50) := by
  rw [add_to_history]
  rw [keepLast50]
  simp

/-- C9: `add_to_history` appends exactly one entry — whose `result_preview`
is the result truncated to at most 100 characters — and then keeps only the
most recent 50 entries, dropping the oldest first: the new history is the
appended list with its oldest overflow dropped, its length never exceeds 50,
and after 60 recorded entries in a fresh session exactly the last 50 remain
in their original oldest-first order (timestamps 10..59). -/
theorem history_bounded_fifo (now : Nat) (c p r : String)
    (h : List HistoryEntry) (hb : h.length ≤ 50) :
    add_to_history now c p r h =
      (h ++ [(⟨now, c, p, if r ≠ "" then pyTake r 100 else ""⟩ : HistoryEntry)]).drop
        (h.length + 1 - 50) ∧
    (if r ≠ "" then pyTake r 100 else "").length ≤ 100 ∧
    (add_to_history now c p r h).length ≤ 50 ∧
    recordMany 60 =
      ((List.range 60).map fun i =>
        (⟨i, "/gen", "p", "r"⟩ : HistoryEntry)).drop 10 := by
  refine ⟨add_to_history_eq_drop now c p r h, ?_, ?_, by decide⟩
  · rcases eq_or_ne r "" with hr | hr
    · simp [hr]
    · rw [if_pos hr]
      show (List.take 100 r.data).length ≤ 100
      exact List.length_take_le 100 r.data
  · rw [add_to_history_eq_drop now c p r h]
    rw [List.length_drop]
    simp only [List.length_append, List.length_cons, List.length_nil]
    omega

/-- Closed instance of `history_bounded_fifo`: recording into a fresh (empty)
history appends the single entry, and the 60-entry eviction scenario holds. -/
theorem history_bounded_fifo_witness :
    (([] : List HistoryEntry).length ≤ 50) ∧
    add_to_history 0 "/gen" "sunset" "PIL Fallback" [] =
      [(⟨0, "/gen", "sunset", "PIL Fallback"⟩ : HistoryEntry)] ∧
    recordMany 60 =
      ((List.range 60).map fun i =>
        (⟨i, "/gen", "p", "r"⟩ : HistoryEntry)).drop 10 :=
  have h := history_bounded_fifo 0 "/gen" "sunset" "PIL Fallback" [] (by decide)
  ⟨by decide, by rw [h.1]; decide, h.2.2.2⟩
